import Mathlib

/-!
Verification of the NovaCall call-orchestration backend (src/main.py, src/schemas.py).

The backend persists outbound call tasks in a `calltask` collection, simulates the
call in a detached background run (`simulate_call_flow`) that appends transcript
entries to a `transcriptlog` collection and updates the task status, and exposes
endpoints to create tasks, append transcript entries directly, and list a call
transcript.

The document store itself (`database.py`: `create_document`, `get_document_by_id`,
`update_document_by_id`, `get_documents`) is not part of src/; it is modelled from
the spec (section 4.1 Document Store Adapter). Everything else is translated from
the source.
-/

namespace NovaCall

/-- Python `datetime` value as produced by `datetime.now(timezone.utc)`: a record of
calendar and clock fields at microsecond resolution, always in UTC. -/
structure PyDateTime where
  year : Nat
  month : Nat
  day : Nat
  hour : Nat
  minute : Nat
  second : Nat
  microsecond : Nat
deriving Repr, DecidableEq

/-- Field bounds maintained by every Python `datetime` object (year 1..9999, month
1..12, day 1..31, clock fields in range, microseconds below 10^6). -/
def PyDateTime.Valid (t : PyDateTime) : Prop :=
  1 ≤ t.year ∧ t.year ≤ 9999 ∧ 1 ≤ t.month ∧ t.month ≤ 12 ∧ 1 ≤ t.day ∧ t.day ≤ 31 ∧
    t.hour ≤ 23 ∧ t.minute ≤ 59 ∧ t.second ≤ 59 ∧ t.microsecond ≤ 999999

instance (t : PyDateTime) : Decidable t.Valid := by
  unfold PyDateTime.Valid
  infer_instance

/-- Decimal digit rendered as a character, as Python does when formatting numbers. -/
def digitChar (d : Nat) : Char := Char.ofNat (48 + d)

/-- Numeric value of a decimal digit character. -/
def digitVal (c : Char) : Nat := c.toNat - 48

/-- Value of a two-digit zero-padded field. -/
def val2 (a b : Char) : Nat := digitVal a * 10 + digitVal b

/-- Value of a four-digit zero-padded field. -/
def val4 (a b c d : Char) : Nat :=
  ((digitVal a * 10 + digitVal b) * 10 + digitVal c) * 10 + digitVal d

/-- Value of a six-digit zero-padded field. -/
def val6 (a b c d e f : Char) : Nat :=
  ((((digitVal a * 10 + digitVal b) * 10 + digitVal c) * 10 + digitVal d) * 10
      + digitVal e) * 10 + digitVal f

/-- Both characters are decimal digits. -/
def digits2 (a b : Char) : Bool := a.isDigit && b.isDigit

/-- All four characters are decimal digits. -/
def digits4 (a b c d : Char) : Bool := a.isDigit && b.isDigit && c.isDigit && d.isDigit

/-- All six characters are decimal digits. -/
def digits6 (a b c d e f : Char) : Bool :=
  a.isDigit && b.isDigit && c.isDigit && d.isDigit && e.isDigit && f.isDigit

/-- Character rendering of `datetime.isoformat()` for a UTC-aware value:
`YYYY-MM-DDTHH:MM:SS+00:00`, with `.ffffff` inserted before the offset when the
microsecond field is non-zero (Python omits the fractional part when it is zero). -/
def PyDateTime.toIsoChars (t : PyDateTime) : List Char :=
  [digitChar (t.year / 1000), digitChar (t.year / 100 % 10),
   digitChar (t.year / 10 % 10), digitChar (t.year % 10), '-',
   digitChar (t.month / 10), digitChar (t.month % 10), '-',
   digitChar (t.day / 10), digitChar (t.day % 10), 'T',
   digitChar (t.hour / 10), digitChar (t.hour % 10), ':',
   digitChar (t.minute / 10), digitChar (t.minute % 10), ':',
   digitChar (t.second / 10), digitChar (t.second % 10)] ++
  (if t.microsecond == 0 then [] else
    ['.', digitChar (t.microsecond / 100000), digitChar (t.microsecond / 10000 % 10),
     digitChar (t.microsecond / 1000 % 10), digitChar (t.microsecond / 100 % 10),
     digitChar (t.microsecond / 10 % 10), digitChar (t.microsecond % 10)]) ++
  ['+', '0', '0', ':', '0', '0']

/-- Python `datetime.isoformat()` restricted to UTC-aware values. -/
def PyDateTime.isoformat (t : PyDateTime) : String := String.mk t.toIsoChars

/-- Assembles a parsed datetime from its digit characters, checking that every
character is a digit and that the resulting fields are in range, as
`datetime.fromisoformat` does. -/
def mkParsed (y1 y2 y3 y4 m1 m2 d1 d2 h1 h2 n1 n2 s1 s2 : Char)
    (us : Nat) (usDigits : Bool) : Option PyDateTime :=
  if usDigits && digits4 y1 y2 y3 y4 && digits2 m1 m2 && digits2 d1 d2 &&
      digits2 h1 h2 && digits2 n1 n2 && digits2 s1 s2 then
    let t : PyDateTime :=
      ⟨val4 y1 y2 y3 y4, val2 m1 m2, val2 d1 d2, val2 h1 h2, val2 n1 n2, val2 s1 s2, us⟩
    if t.Valid then some t else none
  else none

/-- Decoder for the offset suffix `+00:00`, optionally preceded by the
fractional-second part `.ffffff`, given the 14 date and time digit characters
already read. -/
def readSuffix (y1 y2 y3 y4 m1 m2 d1 d2 h1 h2 n1 n2 s1 s2 : Char) :
    List Char → Option PyDateTime
  | [p, z1, z2, c6, z3, z4] =>
    if p == '+' && z1 == '0' && z2 == '0' && c6 == ':' && z3 == '0' && z4 == '0' then
      mkParsed y1 y2 y3 y4 m1 m2 d1 d2 h1 h2 n1 n2 s1 s2 0 true
    else none
  | [dot, u1, u2, u3, u4, u5, u6, p, z1, z2, c6, z3, z4] =>
    if dot == '.' && p == '+' && z1 == '0' && z2 == '0' && c6 == ':' &&
        z3 == '0' && z4 == '0' then
      mkParsed y1 y2 y3 y4 m1 m2 d1 d2 h1 h2 n1 n2 s1 s2
        (val6 u1 u2 u3 u4 u5 u6) (digits6 u1 u2 u3 u4 u5 u6)
    else none
  | _ => none

/-- Decoder for the shapes `datetime.isoformat()` emits for UTC-aware values
(with and without the fractional-second part), following
`datetime.fromisoformat`. -/
def fromIsoChars : List Char → Option PyDateTime
  | y1 :: y2 :: y3 :: y4 :: c1 :: m1 :: m2 :: c2 :: d1 :: d2 :: c3 ::
      h1 :: h2 :: c4 :: n1 :: n2 :: c5 :: s1 :: s2 :: rest =>
    if c1 == '-' && c2 == '-' && c3 == 'T' && c4 == ':' && c5 == ':' then
      readSuffix y1 y2 y3 y4 m1 m2 d1 d2 h1 h2 n1 n2 s1 s2 rest
    else none
  | _ => none

/-- Python `datetime.fromisoformat` on the strings `isoformat` produces. -/
def fromisoformat (s : String) : Option PyDateTime := fromIsoChars s.data

theorem digitChar_isDigit : ∀ d, d < 10 → (digitChar d).isDigit = true := by decide

theorem digitVal_digitChar : ∀ d, d < 10 → digitVal (digitChar d) = d := by decide

theorem digits2_pad (n : Nat) (h : n < 100) :
    digits2 (digitChar (n / 10)) (digitChar (n % 10)) = true := by
  unfold digits2
  rw [digitChar_isDigit _ (by omega), digitChar_isDigit _ (by omega)]
  rfl

theorem val2_pad (n : Nat) (h : n < 100) :
    val2 (digitChar (n / 10)) (digitChar (n % 10)) = n := by
  unfold val2
  rw [digitVal_digitChar _ (by omega), digitVal_digitChar _ (by omega)]
  omega

theorem digits4_pad (n : Nat) (h : n < 10000) :
    digits4 (digitChar (n / 1000)) (digitChar (n / 100 % 10))
      (digitChar (n / 10 % 10)) (digitChar (n % 10)) = true := by
  unfold digits4
  rw [digitChar_isDigit _ (by omega), digitChar_isDigit _ (by omega),
    digitChar_isDigit _ (by omega), digitChar_isDigit _ (by omega)]
  rfl

theorem val4_pad (n : Nat) (h : n < 10000) :
    val4 (digitChar (n / 1000)) (digitChar (n / 100 % 10))
      (digitChar (n / 10 % 10)) (digitChar (n % 10)) = n := by
  unfold val4
  rw [digitVal_digitChar _ (by omega), digitVal_digitChar _ (by omega),
    digitVal_digitChar _ (by omega), digitVal_digitChar _ (by omega)]
  omega

theorem digits6_pad (n : Nat) (h : n < 1000000) :
    digits6 (digitChar (n / 100000)) (digitChar (n / 10000 % 10))
      (digitChar (n / 1000 % 10)) (digitChar (n / 100 % 10))
      (digitChar (n / 10 % 10)) (digitChar (n % 10)) = true := by
  unfold digits6
  rw [digitChar_isDigit _ (by omega), digitChar_isDigit _ (by omega),
    digitChar_isDigit _ (by omega), digitChar_isDigit _ (by omega),
    digitChar_isDigit _ (by omega), digitChar_isDigit _ (by omega)]
  rfl

theorem val6_pad (n : Nat) (h : n < 1000000) :
    val6 (digitChar (n / 100000)) (digitChar (n / 10000 % 10))
      (digitChar (n / 1000 % 10)) (digitChar (n / 100 % 10))
      (digitChar (n / 10 % 10)) (digitChar (n % 10)) = n := by
  unfold val6
  rw [digitVal_digitChar _ (by omega), digitVal_digitChar _ (by omega),
    digitVal_digitChar _ (by omega), digitVal_digitChar _ (by omega),
    digitVal_digitChar _ (by omega), digitVal_digitChar _ (by omega)]
  omega

/-- ISO-8601 round trip: decoding the string `isoformat` produced recovers the
exact datetime, for every in-range UTC datetime. -/
theorem fromisoformat_isoformat (t : PyDateTime) (h : t.Valid) :
    fromisoformat t.isoformat = some t := by
  obtain ⟨h1, h2, h3, h4, h5, h6, h7, h8, h9, h10⟩ := h
  unfold fromisoformat PyDateTime.isoformat
  show fromIsoChars t.toIsoChars = some t
  unfold PyDateTime.toIsoChars
  by_cases hus : t.microsecond = 0
  · simp only [hus, beq_self_eq_true, if_true, List.cons_append, List.nil_append]
    rw [fromIsoChars]
    simp only [beq_self_eq_true, Bool.and_self, if_true]
    rw [readSuffix]
    simp only [beq_self_eq_true, Bool.and_self, if_true]
    unfold mkParsed
    rw [digits4_pad _ (by omega), digits2_pad t.month (by omega),
      digits2_pad t.day (by omega), digits2_pad t.hour (by omega),
      digits2_pad t.minute (by omega), digits2_pad t.second (by omega),
      val4_pad _ (by omega), val2_pad t.month (by omega), val2_pad t.day (by omega),
      val2_pad t.hour (by omega), val2_pad t.minute (by omega),
      val2_pad t.second (by omega)]
    have ht : (⟨t.year, t.month, t.day, t.hour, t.minute, t.second, 0⟩ : PyDateTime) = t := by
      cases t
      simp_all
    rw [ht]
    simp only [Bool.and_self, if_true]
    rw [if_pos ⟨h1, h2, h3, h4, h5, h6, h7, h8, h9, h10⟩]
  · have hne : (t.microsecond == 0) = false := by
      simp [hus]
    simp only [hne, Bool.false_eq_true, if_false, List.cons_append, List.nil_append]
    rw [fromIsoChars]
    simp only [beq_self_eq_true, Bool.and_self, if_true]
    simp only [readSuffix, beq_self_eq_true, Bool.and_self, if_true]
    unfold mkParsed
    rw [digits6_pad _ (by omega), digits4_pad _ (by omega), digits2_pad t.month (by omega),
      digits2_pad t.day (by omega), digits2_pad t.hour (by omega),
      digits2_pad t.minute (by omega), digits2_pad t.second (by omega),
      val6_pad _ (by omega), val4_pad _ (by omega), val2_pad t.month (by omega),
      val2_pad t.day (by omega), val2_pad t.hour (by omega), val2_pad t.minute (by omega),
      val2_pad t.second (by omega)]
    have ht : (⟨t.year, t.month, t.day, t.hour, t.minute, t.second, t.microsecond⟩ :
        PyDateTime) = t := by
      cases t
      rfl
    rw [ht]
    simp only [Bool.and_self, if_true]
    rw [if_pos ⟨h1, h2, h3, h4, h5, h6, h7, h8, h9, h10⟩]

/-- Pydantic model `CallTask` from src/schemas.py: the required fields are plain
strings (pydantic does not reject empty strings), the optional fields default to
`None`, `consent_required` defaults to `False` and `status` defaults to
`"pending"`. -/
structure CallTask where
  target_phone : String
  intent : String
  script : Option String
  talking_points : Option (List String)
  fallback_conditions : Option (List String)
  voice_model_id : String
  consent_required : Bool
  status : String
deriving Repr, DecidableEq

/-- Pydantic model `TranscriptLog` from src/schemas.py: `role` is a plain string
(the enum named in its description is not enforced), `timestamp` and `outcome`
default to `None`. -/
structure TranscriptLog where
  call_id : String
  role : String
  text : String
  timestamp : Option PyDateTime
  outcome : Option String
deriving Repr, DecidableEq

/-- Modelled from the spec: the opaque store-internal identifier a created document
receives (Mongo ObjectId). Rendered to a plain string by `str`, modelled here as
the decimal rendering of the underlying counter. -/
structure ObjectId where
  val : Nat
deriving Repr, DecidableEq

/-- String rendering of a store-internal id, as applied at the read boundary. -/
def ObjectId.str (o : ObjectId) : String := Nat.repr o.val

/-- Document of the `calltask` collection: a store-assigned id plus the model
fields. -/
structure StoredCallTask where
  _id : ObjectId
  task : CallTask
deriving Repr, DecidableEq

/-- Document of the `transcriptlog` collection: a store-assigned id plus the model
fields. -/
structure StoredTranscript where
  _id : ObjectId
  entry : TranscriptLog
deriving Repr, DecidableEq

/-- Modelled from the spec: the backing document store (database.py is not under
src/), restricted to the two collections the claims touch. Documents are kept in
insertion order; `nextId` feeds the store-assigned ids. -/
structure Store where
  calltask : List StoredCallTask
  transcriptlog : List StoredTranscript
  nextId : Nat
deriving Repr, DecidableEq

/-- Store with no documents. -/
def emptyStore : Store := ⟨[], [], 0⟩

/-- Id the store will assign to the next created document. -/
def Store.freshId (s : Store) : ObjectId := ⟨s.nextId⟩

/-- Modelled from the spec: `create_document` on the `calltask` collection —
appends the record and returns its new id as a string. -/
def create_document_calltask (s : Store) (t : CallTask) : Store × String :=
  ({ s with calltask := s.calltask ++ [⟨s.freshId, t⟩], nextId := s.nextId + 1 },
    s.freshId.str)

/-- Modelled from the spec: `create_document` on the `transcriptlog` collection. -/
def create_document_transcriptlog (s : Store) (e : TranscriptLog) : Store × String :=
  ({ s with transcriptlog := s.transcriptlog ++ [⟨s.freshId, e⟩], nextId := s.nextId + 1 },
    s.freshId.str)

/-- Modelled from the spec: `get_document_by_id` on the `calltask` collection —
the first document whose id renders to the given string, or nothing. -/
def get_document_by_id_calltask (s : Store) (id : String) : Option CallTask :=
  (s.calltask.find? (fun d => d._id.str == id)).map (fun d => d.task)

/-- Helper for `update_document_by_id`: rewrite the `status` field of the first
document matching the id, leaving everything else untouched. -/
def updateStatusAux (id v : String) : List StoredCallTask → List StoredCallTask
  | [] => []
  | d :: rest =>
    if d._id.str == id then { d with task := { d.task with status := v } } :: rest
    else d :: updateStatusAux id v rest

/-- Modelled from the spec: `update_document_by_id` on the `calltask` collection,
specialized to the status-only partial record the source always passes; a missing
id matches nothing and leaves the store unchanged (NotFound). -/
def update_document_by_id_calltask (s : Store) (id v : String) : Store :=
  { s with calltask := updateStatusAux id v s.calltask }

/-- Modelled from the spec: `get_documents` on the `transcriptlog` collection with
filter on `call_id` — matching documents in insertion order, capped at `limit`. -/
def get_documents_transcriptlog (s : Store) (call_id : String) (limit : Nat) :
    List StoredTranscript :=
  (s.transcriptlog.filter (fun d => d.entry.call_id == call_id)).take limit

/-- Transcript entries currently stored for a call id, in insertion order
(unbounded view of the collection, used to state invariants). -/
def transcriptsFor (s : Store) (call_id : String) : List TranscriptLog :=
  ((s.transcriptlog.filter (fun d => d.entry.call_id == call_id)).map (fun d => d.entry))

/-- Scripted utterances of `simulate_call_flow` (src/main.py lines 91 to 96),
after resolving phone, voice and intent from the loaded task or their fallbacks. -/
def callScript (phone voice intent : String) : List (String × String) :=
  [("system", "Dialing target " ++ phone ++ " using voice model " ++ voice ++ " ..."),
   ("assistant", "Hello! This is Nova calling on behalf of Manohar. Is now a good time?"),
   ("callee", "Yes, I have a minute."),
   ("assistant", "Great. The purpose of my call is " ++ intent ++ ".")]

/-- Loop of `simulate_call_flow` (src/main.py lines 98 to 101): append each step
as a transcript document with the current time as timestamp. `failAt` injects a
store error at the given append index (the source has no exception handler, so a
raise aborts the run: result flag `false`); `clock` supplies the value of
`datetime.now(timezone.utc)` at each append. -/
def runSteps (failAt : Nat → Bool) (clock : Nat → PyDateTime) (call_id : String) :
    List (String × String) → Nat → Store → Store × Bool
  | [], _, s => (s, true)
  | (role, text) :: rest, i, s =>
    if failAt i then (s, false)
    else runSteps failAt clock call_id rest (i + 1)
      (create_document_transcriptlog s ⟨call_id, role, text, some (clock i), none⟩).1

/-- Engine entry point `simulate_call_flow` (src/main.py lines 79 to 114): write
status `in_progress`, load the task (falling back to placeholder strings when it
is missing), append the four scripted entries, append the final entry with
`outcome = "completed"`, then write status `completed`. The returned flag is
`false` when an injected store error aborted the run. -/
def simulate_call_flow (failAt : Nat → Bool) (clock : Nat → PyDateTime)
    (call_id : String) (s : Store) : Store × Bool :=
  let s1 := update_document_by_id_calltask s call_id "in_progress"
  let task? := get_document_by_id_calltask s1 call_id
  let intent := (task?.map (fun t => t.intent)).getD "the stated purpose"
  let voice := (task?.map (fun t => t.voice_model_id)).getD "manohar-voice-v1"
  let phone := (task?.map (fun t => t.target_phone)).getD ""
  match runSteps failAt clock call_id (callScript phone voice intent) 0 s1 with
  | (s2, false) => (s2, false)
  | (s2, true) =>
    if failAt 4 then (s2, false)
    else
      let s3 := (create_document_transcriptlog s2
        ⟨call_id, "system", "Call completed successfully.", some (clock 4),
          some "completed"⟩).1
      (update_document_by_id_calltask s3 call_id "completed", true)

/-- Request body of `POST /api/call-tasks` before pydantic validation: every
declared field of `CallTask` may be present or absent. Unknown keys (such as an
attempted `id`) are ignored by pydantic and therefore not represented. -/
structure CallTaskInput where
  target_phone : Option String
  intent : Option String
  script : Option String
  talking_points : Option (List String)
  fallback_conditions : Option (List String)
  voice_model_id : Option String
  consent_required : Option Bool
  status : Option String
deriving Repr, DecidableEq

/-- Pydantic validation of a `CallTask` body: the three required fields must be
present (any string, empty included); the remaining fields take their declared
defaults when absent. -/
def CallTask.parse (i : CallTaskInput) : Option CallTask :=
  match i.target_phone, i.intent, i.voice_model_id with
  | some tp, some it, some vm =>
    some { target_phone := tp, intent := it, script := i.script,
           talking_points := i.talking_points,
           fallback_conditions := i.fallback_conditions, voice_model_id := vm,
           consent_required := i.consent_required.getD false,
           status := i.status.getD "pending" }
  | _, _, _ => none

/-- Handler of `POST /api/call-tasks` (src/main.py lines 118 to 126): validation
failure rejects the request before the handler runs (nothing persisted); on
success the task document is created and `(id, "queued")` returned. The detached
engine run it schedules is modelled separately by `simulate_call_flow`. -/
def create_call_task (i : CallTaskInput) (s : Store) : Store × Option (String × String) :=
  match CallTask.parse i with
  | none => (s, none)
  | some task =>
    let p := create_document_calltask s task
    (p.1, some (p.2, "queued"))

/-- Request body of `POST /api/transcripts` before pydantic validation
(`TranscriptPayload`, src/main.py lines 129 to 133): only `call_id`, `role`,
`text` and the optional `outcome` exist; there is no timestamp field. -/
structure TranscriptPayloadInput where
  call_id : Option String
  role : Option String
  text : Option String
  outcome : Option String
deriving Repr, DecidableEq

/-- Validated `TranscriptPayload`: the three required fields present (any strings),
`outcome` defaulting to `None`. -/
structure TranscriptPayload where
  call_id : String
  role : String
  text : String
  outcome : Option String
deriving Repr, DecidableEq

/-- Pydantic validation of a `TranscriptPayload` body. -/
def TranscriptPayload.parse (i : TranscriptPayloadInput) : Option TranscriptPayload :=
  match i.call_id, i.role, i.text with
  | some c, some r, some tx => some ⟨c, r, tx, i.outcome⟩
  | _, _, _ => none

/-- Handler of `POST /api/transcripts` (src/main.py lines 135 to 148): on a valid
body, store one entry whose timestamp is the server clock `now`; the flag mirrors
the `ok` response. -/
def log_transcript (now : PyDateTime) (i : TranscriptPayloadInput) (s : Store) :
    Store × Bool :=
  match TranscriptPayload.parse i with
  | none => (s, false)
  | some p =>
    ((create_document_transcriptlog s ⟨p.call_id, p.role, p.text, some now, p.outcome⟩).1,
      true)

/-- Item shape returned by `GET /api/transcripts` after normalization: the store
id as a plain string and the timestamp as an ISO-8601 string (absent timestamps
stay absent). -/
structure TranscriptItem where
  _id : String
  call_id : String
  role : String
  text : String
  timestamp : Option String
  outcome : Option String
deriving Repr, DecidableEq

/-- Normalization performed in `get_transcripts` (src/main.py lines 157 to 161):
`str` on the store id and `isoformat` on a datetime timestamp. -/
def normalizeDoc (d : StoredTranscript) : TranscriptItem :=
  { _id := d._id.str, call_id := d.entry.call_id, role := d.entry.role,
    text := d.entry.text,
    timestamp := d.entry.timestamp.map PyDateTime.isoformat,
    outcome := d.entry.outcome }

/-- Handler of `GET /api/transcripts/call_id` (src/main.py lines 152 to 164):
query the matching documents capped at `limit` (default 100) and normalize each. -/
def get_transcripts (s : Store) (call_id : String) (limit : Nat := 100) :
    List TranscriptItem :=
  (get_documents_transcriptlog s call_id limit).map normalizeDoc

/-- Fixed timestamp used by the concrete scenarios. -/
def epochDT : PyDateTime := ⟨2024, 5, 1, 12, 0, 0, 0⟩

/-- Clock whose every reading is `epochDT`. -/
def constClock : Nat → PyDateTime := fun _ => epochDT

/-- Environment without injected store errors. -/
def noFail : Nat → Bool := fun _ => false

/-- Request body from the spec scenario, with all required fields present. -/
def sampleInput : CallTaskInput :=
  ⟨some "+15551234567", some "confirm appointment", none, none, none, some "v1",
    none, none⟩

/-- Store holding the single task created from `sampleInput` (its id renders
as "0"). -/
def seededStore : Store := (create_call_task sampleInput emptyStore).1

theorem create_transcriptlog_calltask (s : Store) (e : TranscriptLog) :
    (create_document_transcriptlog s e).1.calltask = s.calltask := rfl

theorem update_calltask_transcriptlog (s : Store) (id v : String) :
    (update_document_by_id_calltask s id v).transcriptlog = s.transcriptlog := rfl

theorem updateStatusAux_not_found (id v : String) :
    ∀ l : List StoredCallTask, l.find? (fun d => d._id.str == id) = none →
      updateStatusAux id v l = l := by
  intro l
  induction l with
  | nil => intro _; rfl
  | cons d rest ih =>
    intro h
    rcases hd : (d._id.str == id) with _ | _
    · rw [List.find?_cons_of_neg _ (by simp [hd])] at h
      unfold updateStatusAux
      rw [hd]
      simp [ih h]
    · rw [List.find?_cons_of_pos _ (by simp [hd])] at h
      cases h

theorem find?_updateStatusAux (id v : String) :
    ∀ l : List StoredCallTask,
      (updateStatusAux id v l).find? (fun d => d._id.str == id) =
        (l.find? (fun d => d._id.str == id)).map
          (fun d => { d with task := { d.task with status := v } }) := by
  intro l
  induction l with
  | nil => rfl
  | cons d rest ih =>
    rcases hd : (d._id.str == id) with _ | _
    · unfold updateStatusAux
      rw [hd]
      simp only [Bool.false_eq_true, if_false]
      rw [List.find?_cons_of_neg _ (by simp [hd]),
        List.find?_cons_of_neg _ (by simp [hd]), ih]
    · unfold updateStatusAux
      rw [hd]
      simp only [if_true]
      rw [List.find?_cons_of_pos _ (by simp [hd]),
        List.find?_cons_of_pos _ (by simp [hd])]
      rfl

theorem get_update_calltask (s : Store) (id v : String) :
    get_document_by_id_calltask (update_document_by_id_calltask s id v) id =
      (get_document_by_id_calltask s id).map (fun t => { t with status := v }) := by
  unfold get_document_by_id_calltask update_document_by_id_calltask
  rw [find?_updateStatusAux]
  cases s.calltask.find? (fun d => d._id.str == id) with
  | none => rfl
  | some d => rfl

theorem runSteps_calltask (failAt : Nat → Bool) (clock : Nat → PyDateTime)
    (cid : String) :
    ∀ (steps : List (String × String)) (i : Nat) (s : Store),
      (runSteps failAt clock cid steps i s).1.calltask = s.calltask := by
  intro steps
  induction steps with
  | nil => intro i s; rfl
  | cons st rest ih =>
    intro i s
    obtain ⟨role, text⟩ := st
    unfold runSteps
    by_cases hi : failAt i = true
    · simp [hi]
    · simp [hi, ih, create_transcriptlog_calltask]

theorem runSteps_transcriptlog_mem (failAt : Nat → Bool) (clock : Nat → PyDateTime)
    (cid : String) :
    ∀ (steps : List (String × String)) (i : Nat) (s : Store) (d : StoredTranscript),
      d ∈ (runSteps failAt clock cid steps i s).1.transcriptlog →
      d ∈ s.transcriptlog ∨ d.entry.role ∈ steps.map Prod.fst := by
  intro steps
  induction steps with
  | nil => intro i s d h; exact Or.inl h
  | cons st rest ih =>
    intro i s d h
    obtain ⟨role, text⟩ := st
    unfold runSteps at h
    by_cases hi : failAt i = true
    · rw [if_pos hi] at h
      exact Or.inl h
    · rw [if_neg hi] at h
      rcases ih _ _ _ h with hmem | hrole
      · rw [show (create_document_transcriptlog s
            ⟨cid, role, text, some (clock i), none⟩).1.transcriptlog =
            s.transcriptlog ++ [⟨s.freshId, ⟨cid, role, text, some (clock i), none⟩⟩]
            from rfl, List.mem_append] at hmem
        rcases hmem with hmem | hmem
        · exact Or.inl hmem
        · right
          rcases List.mem_singleton.mp hmem with rfl
          simp
      · right
        simp [hrole]

/-- Claim C1 as stated fails at a concrete input: invoking the engine entry point
with a call id for which no task record exists does not abort without side
effects — it creates five transcript entries for that call id (the status store is
indeed left untouched, because an update on a missing id matches nothing). -/
theorem c1_counterexample :
    get_document_by_id_calltask emptyStore "missing" = none ∧
    (transcriptsFor (simulate_call_flow noFail constClock "missing" emptyStore).1
        "missing").length = 5 :=
  ⟨rfl, rfl⟩

/-- Claim C1 amended: when the engine entry point is invoked with a call id for
which no task record exists, it does not abort — it proceeds with placeholder
values and appends five transcript entries for that id; the calltask collection is
left unchanged, so no status value is written. -/
theorem c1_amended (clock : Nat → PyDateTime) (cid : String) (s : Store)
    (h : get_document_by_id_calltask s cid = none) :
    (simulate_call_flow noFail clock cid s).1.calltask = s.calltask ∧
    (transcriptsFor (simulate_call_flow noFail clock cid s).1 cid).length =
      (transcriptsFor s cid).length + 5 := by
  have hfind : s.calltask.find? (fun d => d._id.str == cid) = none := by
    unfold get_document_by_id_calltask at h
    exact Option.map_eq_none'.mp h
  constructor
  · have hcall : (simulate_call_flow noFail clock cid s).1.calltask =
        updateStatusAux cid "completed" (updateStatusAux cid "in_progress" s.calltask) := by
      simp [simulate_call_flow, callScript, runSteps, noFail,
        create_document_transcriptlog, update_document_by_id_calltask]
    rw [hcall, updateStatusAux_not_found _ _ _ hfind, updateStatusAux_not_found _ _ _ hfind]
  · simp [simulate_call_flow, callScript, runSteps, noFail, create_document_transcriptlog,
      update_document_by_id_calltask, transcriptsFor, List.filter_append]

/-- Witness for `c1_amended` at a concrete input. -/
theorem c1_amended_witness :
    (simulate_call_flow noFail constClock "missing" emptyStore).1.calltask =
        emptyStore.calltask ∧
    (transcriptsFor (simulate_call_flow noFail constClock "missing" emptyStore).1
        "missing").length = (transcriptsFor emptyStore "missing").length + 5 :=
  c1_amended constClock "missing" emptyStore rfl

/-- Claim C2 as stated fails at a concrete input: with a store error injected at
the third transcript append, the run errors out, yet the task is left with status
in_progress — no status value of failed is written. -/
theorem c2_counterexample :
    (simulate_call_flow (fun i => i == 2) constClock "0" seededStore).2 = false ∧
    (get_document_by_id_calltask
        (simulate_call_flow (fun i => i == 2) constClock "0" seededStore).1 "0").map
      (fun t => t.status) = some "in_progress" :=
  ⟨rfl, rfl⟩

/-- Claim C2 amended: when an append raises a store error the remaining steps are
indeed skipped, but the engine performs no further status write: the calltask
collection is exactly as after the initial in-progress transition, so an erroring
run leaves the task at in_progress and never writes status failed. -/
theorem c2_amended (failAt : Nat → Bool) (clock : Nat → PyDateTime) (cid : String)
    (s : Store) (herr : (simulate_call_flow failAt clock cid s).2 = false) :
    (simulate_call_flow failAt clock cid s).1.calltask =
      (update_document_by_id_calltask s cid "in_progress").calltask := by
  by_cases h0 : failAt 0 = true
  · simp [simulate_call_flow, callScript, runSteps, h0, create_document_transcriptlog,
      update_document_by_id_calltask]
  by_cases h1 : failAt 1 = true
  · simp [simulate_call_flow, callScript, runSteps, h0, h1, create_document_transcriptlog,
      update_document_by_id_calltask]
  by_cases h2 : failAt 2 = true
  · simp [simulate_call_flow, callScript, runSteps, h0, h1, h2,
      create_document_transcriptlog, update_document_by_id_calltask]
  by_cases h3 : failAt 3 = true
  · simp [simulate_call_flow, callScript, runSteps, h0, h1, h2, h3,
      create_document_transcriptlog, update_document_by_id_calltask]
  by_cases h4 : failAt 4 = true
  · simp [simulate_call_flow, callScript, runSteps, h0, h1, h2, h3, h4,
      create_document_transcriptlog, update_document_by_id_calltask]
  exfalso
  simp [simulate_call_flow, callScript, runSteps, h0, h1, h2, h3, h4] at herr

/-- Witness for `c2_amended` at a concrete input. -/
theorem c2_amended_witness :
    (simulate_call_flow (fun i => i == 2) constClock "0" seededStore).1.calltask =
      (update_document_by_id_calltask seededStore "0" "in_progress").calltask :=
  c2_amended (fun i => i == 2) constClock "0" seededStore rfl

/-- Direct transcript-logging body carrying a non-null outcome. -/
def outcomePayload : TranscriptPayloadInput :=
  ⟨some "c1", some "assistant", some "hi", some "completed"⟩

/-- Claim C3 as stated fails at a concrete input: two direct logging calls, each
supplying a non-null outcome, leave two stored entries for the same call id with a
non-null outcome — more than the single one the claim allows. -/
theorem c3_counterexample :
    ((transcriptsFor
        (log_transcript epochDT outcomePayload
          (log_transcript epochDT outcomePayload emptyStore).1).1 "c1").filter
      (fun e => e.outcome.isSome)).length = 2 :=
  rfl

/-- Claim C3 amended: the invariant holds for engine-created entries — after an
error-free run on a call id with no prior entries, the stored outcomes for that id
are exactly four nulls followed by one completed marker, so exactly one entry
carries a non-null outcome and it is the chronologically last; the direct logging
operation, however, stores whatever outcome the caller supplies and so can break
the invariant. -/
theorem c3_amended (clock : Nat → PyDateTime) (cid : String) (s : Store)
    (h : transcriptsFor s cid = []) :
    (transcriptsFor (simulate_call_flow noFail clock cid s).1 cid).map
      (fun e => e.outcome) = [none, none, none, none, some "completed"] := by
  unfold transcriptsFor at h
  rw [List.map_eq_nil_iff] at h
  simp [simulate_call_flow, callScript, runSteps, noFail, create_document_transcriptlog,
    update_document_by_id_calltask, transcriptsFor, List.filter_append, h]

/-- Witness for `c3_amended` at a concrete input. -/
theorem c3_amended_witness :
    (transcriptsFor (simulate_call_flow noFail constClock "c1" emptyStore).1 "c1").map
      (fun e => e.outcome) = [none, none, none, none, some "completed"] :=
  c3_amended constClock "c1" emptyStore rfl

/-- Body whose three required fields are present but empty. -/
def emptyFieldsInput : CallTaskInput :=
  ⟨some "", some "", none, none, none, some "", none, none⟩

/-- Claim C4 as stated fails at a concrete input: a body whose target_phone,
intent and voice_model_id are all the empty string is not rejected — the task is
accepted, persisted, and an id is returned. -/
theorem c4_counterexample :
    (create_call_task emptyFieldsInput emptyStore).2 = some ("0", "queued") ∧
    (create_call_task emptyFieldsInput emptyStore).1.calltask.length = 1 :=
  ⟨rfl, rfl⟩

/-- Claim C4 amended: a body missing target_phone, intent or voice_model_id is
rejected before anything is persisted; for every body in which all three fields are
present — empty strings included — creation succeeds, persists one task and returns
an id. -/
theorem c4_amended (i : CallTaskInput) (s : Store) :
    ((i.target_phone = none ∨ i.intent = none ∨ i.voice_model_id = none) →
      create_call_task i s = (s, none)) ∧
    (∀ tp it vm, i.target_phone = some tp → i.intent = some it →
      i.voice_model_id = some vm →
      (create_call_task i s).2 = some (s.freshId.str, "queued") ∧
      (create_call_task i s).1.calltask.length = s.calltask.length + 1) := by
  constructor
  · intro h
    rcases htp : i.target_phone with _ | tp <;>
      rcases hit : i.intent with _ | it <;>
        rcases hvm : i.voice_model_id with _ | vm <;>
          simp_all [create_call_task, CallTask.parse]
  · intro tp it vm htp hit hvm
    unfold create_call_task CallTask.parse
    rw [htp, hit, hvm]
    exact ⟨rfl, by simp [create_document_calltask]⟩

/-- Witness for `c4_amended` at concrete inputs: a body missing target_phone is
rejected with the store untouched, and the sample body is accepted. -/
theorem c4_amended_witness :
    create_call_task ⟨none, some "x", none, none, none, some "v", none, none⟩
        emptyStore = (emptyStore, none) ∧
    (create_call_task sampleInput emptyStore).2 = some (emptyStore.freshId.str, "queued") :=
  ⟨(c4_amended ⟨none, some "x", none, none, none, some "v", none, none⟩ emptyStore).1
      (Or.inl rfl),
    ((c4_amended sampleInput emptyStore).2 "+15551234567" "confirm appointment" "v1"
      rfl rfl rfl).1⟩

/-- Claim C5 confirmed: a run of the engine that completes without error on an
existing task increases the transcript entries for that call by exactly five (so at
least five exist), the final appended entry has role system and outcome completed
and is the last in listing order, and the stored task status afterwards is
completed. -/
theorem c5_confirmed (failAt : Nat → Bool) (clock : Nat → PyDateTime) (cid : String)
    (s : Store) (t : CallTask)
    (hget : get_document_by_id_calltask s cid = some t)
    (hok : (simulate_call_flow failAt clock cid s).2 = true) :
    5 ≤ (transcriptsFor (simulate_call_flow failAt clock cid s).1 cid).length ∧
    (transcriptsFor (simulate_call_flow failAt clock cid s).1 cid).length =
      (transcriptsFor s cid).length + 5 ∧
    (transcriptsFor (simulate_call_flow failAt clock cid s).1 cid).getLast? =
      some ⟨cid, "system", "Call completed successfully.", some (clock 4),
        some "completed"⟩ ∧
    (get_document_by_id_calltask (simulate_call_flow failAt clock cid s).1 cid).map
      (fun u => u.status) = some "completed" := by
  by_cases h0 : failAt 0 = true
  · simp [simulate_call_flow, callScript, runSteps, h0] at hok
  by_cases h1 : failAt 1 = true
  · simp [simulate_call_flow, callScript, runSteps, h0, h1] at hok
  by_cases h2 : failAt 2 = true
  · simp [simulate_call_flow, callScript, runSteps, h0, h1, h2] at hok
  by_cases h3 : failAt 3 = true
  · simp [simulate_call_flow, callScript, runSteps, h0, h1, h2, h3] at hok
  by_cases h4 : failAt 4 = true
  · simp [simulate_call_flow, callScript, runSteps, h0, h1, h2, h3, h4] at hok
  have hlen : (transcriptsFor (simulate_call_flow failAt clock cid s).1 cid).length =
      (transcriptsFor s cid).length + 5 := by
    simp [simulate_call_flow, callScript, runSteps, h0, h1, h2, h3, h4,
      create_document_transcriptlog, update_document_by_id_calltask, transcriptsFor,
      List.filter_append]
  refine ⟨by omega, hlen, ?_, ?_⟩
  · simp [simulate_call_flow, callScript, runSteps, h0, h1, h2, h3, h4,
      create_document_transcriptlog, update_document_by_id_calltask, transcriptsFor,
      List.filter_append]
  · have hcall : (simulate_call_flow failAt clock cid s).1.calltask =
        updateStatusAux cid "completed" (updateStatusAux cid "in_progress" s.calltask) := by
      simp [simulate_call_flow, callScript, runSteps, h0, h1, h2, h3, h4,
        create_document_transcriptlog, update_document_by_id_calltask]
    unfold get_document_by_id_calltask at hget
    cases hfind : s.calltask.find? (fun d => d._id.str == cid) with
    | none =>
      rw [hfind] at hget
      cases hget
    | some d =>
      unfold get_document_by_id_calltask
      rw [hcall, find?_updateStatusAux, find?_updateStatusAux, hfind]
      rfl

/-- Witness for `c5_confirmed` at a concrete input: the seeded sample task. -/
theorem c5_confirmed_witness :
    5 ≤ (transcriptsFor (simulate_call_flow noFail constClock "0" seededStore).1 "0").length ∧
    (transcriptsFor (simulate_call_flow noFail constClock "0" seededStore).1 "0").length =
      (transcriptsFor seededStore "0").length + 5 ∧
    (transcriptsFor (simulate_call_flow noFail constClock "0" seededStore).1 "0").getLast? =
      some ⟨"0", "system", "Call completed successfully.", some (constClock 4),
        some "completed"⟩ ∧
    (get_document_by_id_calltask (simulate_call_flow noFail constClock "0" seededStore).1
        "0").map (fun u => u.status) = some "completed" :=
  c5_confirmed noFail constClock "0" seededStore
    ⟨"+15551234567", "confirm appointment", none, none, none, "v1", false, "pending"⟩
    rfl rfl

/-- Body that supplies its own status value. -/
def statusInput : CallTaskInput :=
  ⟨some "+15550000000", some "say hello", none, none, none, some "v1", none,
    some "completed"⟩

/-- Claim C6 as stated fails at a concrete input: the creation endpoint accepts a
body that includes a status field — the request body can determine the initial
status, and the task is born with status completed instead of pending. -/
theorem c6_counterexample :
    (create_call_task statusInput emptyStore).1.calltask.map
      (fun d => d.task.status) = ["completed"] :=
  rfl

/-- Claim C6 amended: a task created through the submission endpoint starts at
status pending exactly when the body omits the status field — the accepted input
does include status, stored verbatim when present; the id is store-assigned and
cannot come from the body (the input shape has no id field). -/
theorem c6_amended (i : CallTaskInput) (s : Store) (t : CallTask)
    (h : CallTask.parse i = some t) :
    t.status = i.status.getD "pending" ∧
    (create_call_task i s).1.calltask = s.calltask ++ [⟨s.freshId, t⟩] := by
  rcases htp : i.target_phone with _ | tp <;> rcases hit : i.intent with _ | it <;>
    rcases hvm : i.voice_model_id with _ | vm <;>
      rw [CallTask.parse, htp, hit, hvm] at h <;> cases h
  constructor
  · rfl
  · unfold create_call_task CallTask.parse
    rw [htp, hit, hvm]
    rfl

/-- Witness for `c6_amended` at a concrete input. -/
theorem c6_amended_witness :
    (⟨"+15551234567", "confirm appointment", none, none, none, "v1", false,
        "pending"⟩ : CallTask).status = sampleInput.status.getD "pending" ∧
    (create_call_task sampleInput emptyStore).1.calltask =
      emptyStore.calltask ++ [⟨emptyStore.freshId,
        ⟨"+15551234567", "confirm appointment", none, none, none, "v1", false,
          "pending"⟩⟩] :=
  c6_amended sampleInput emptyStore _ rfl

/-- Direct logging body whose role is outside the documented enum. -/
def robotPayload : TranscriptPayloadInput :=
  ⟨some "c1", some "robot", some "beep", none⟩

/-- Claim C7 as stated fails at a concrete input: the direct transcript-logging
operation accepts and stores an entry whose role is robot, which is not in the set
with assistant, callee and system — nothing rejects it. -/
theorem c7_counterexample :
    (log_transcript epochDT robotPayload emptyStore).2 = true ∧
    (transcriptsFor (log_transcript epochDT robotPayload emptyStore).1 "c1").map
      (fun e => e.role) = ["robot"] ∧
    "robot" ∉ (["assistant", "callee", "system"] : List String) :=
  ⟨rfl, rfl, by decide⟩

/-- Claim C7 amended: every transcript entry the engine itself stores has a role
drawn from system, assistant and callee; the direct logging operation, however,
accepts any string role — a body whose three required fields are present is always
accepted, with no role check. -/
theorem c7_amended (failAt : Nat → Bool) (clock : Nat → PyDateTime) (cid : String)
    (s : Store) :
    (∀ d ∈ (simulate_call_flow failAt clock cid s).1.transcriptlog,
      d ∈ s.transcriptlog ∨
        d.entry.role ∈ (["system", "assistant", "callee"] : List String)) ∧
    (∀ (now : PyDateTime) (i : TranscriptPayloadInput) (p : TranscriptPayload),
      TranscriptPayload.parse i = some p → (log_transcript now i s).2 = true) := by
  constructor
  · intro d hd
    by_cases h0 : failAt 0 = true
    · simp [simulate_call_flow, callScript, runSteps, h0,
        create_document_transcriptlog, update_document_by_id_calltask] at hd
      exact Or.inl hd
    by_cases h1 : failAt 1 = true
    · simp [simulate_call_flow, callScript, runSteps, h0, h1,
        create_document_transcriptlog, update_document_by_id_calltask] at hd
      rcases hd with hd | rfl
      · exact Or.inl hd
      · right; simp
    by_cases h2 : failAt 2 = true
    · simp [simulate_call_flow, callScript, runSteps, h0, h1, h2,
        create_document_transcriptlog, update_document_by_id_calltask] at hd
      rcases hd with hd | rfl | rfl
      · exact Or.inl hd
      · right; simp
      · right; simp
    by_cases h3 : failAt 3 = true
    · simp [simulate_call_flow, callScript, runSteps, h0, h1, h2, h3,
        create_document_transcriptlog, update_document_by_id_calltask] at hd
      rcases hd with hd | rfl | rfl | rfl
      · exact Or.inl hd
      · right; simp
      · right; simp
      · right; simp
    by_cases h4 : failAt 4 = true
    · simp [simulate_call_flow, callScript, runSteps, h0, h1, h2, h3, h4,
        create_document_transcriptlog, update_document_by_id_calltask] at hd
      rcases hd with hd | rfl | rfl | rfl | rfl
      · exact Or.inl hd
      · right; simp
      · right; simp
      · right; simp
      · right; simp
    · simp [simulate_call_flow, callScript, runSteps, h0, h1, h2, h3, h4,
        create_document_transcriptlog, update_document_by_id_calltask] at hd
      rcases hd with hd | rfl | rfl | rfl | rfl | rfl
      · exact Or.inl hd
      · right; simp
      · right; simp
      · right; simp
      · right; simp
      · right; simp
  · intro now i p h
    unfold log_transcript
    rw [h]

/-- Witness for `c7_amended` at concrete inputs: the simulated callee entry of an
engine run, and acceptance of the robot-role body. -/
theorem c7_witness :
    ((⟨⟨2⟩, ⟨"c1", "callee", "Yes, I have a minute.", some epochDT, none⟩⟩ :
        StoredTranscript) ∈ emptyStore.transcriptlog ∨
      (⟨⟨2⟩, ⟨"c1", "callee", "Yes, I have a minute.", some epochDT, none⟩⟩ :
        StoredTranscript).entry.role ∈ (["system", "assistant", "callee"] : List String)) ∧
    (log_transcript epochDT robotPayload emptyStore).2 = true :=
  ⟨(c7_amended noFail constClock "c1" emptyStore).1 _ (by decide),
    (c7_amended noFail constClock "c1" emptyStore).2 epochDT robotPayload
      ⟨"c1", "robot", "beep", none⟩ rfl⟩

/-- Timestamp with a non-zero microsecond field, as `datetime.now` produces. -/
def demoDT : PyDateTime := ⟨2024, 5, 1, 12, 30, 45, 123456⟩

/-- Store holding one engine-style entry stamped with `demoDT`. -/
def demoStore : Store :=
  ⟨[], [⟨⟨7⟩, ⟨"c1", "system", "note", some demoDT, none⟩⟩], 8⟩

/-- Claim C8 confirmed: every item the transcript listing returns comes from a
stored document whose store-internal id it carries as a plain string and whose
timestamp it carries serialized with isoformat; decoding that ISO-8601 string
recovers exactly the UTC instant that was stored (round trip without precision
loss), for any store whose timestamps are in-range datetimes. -/
theorem c8_confirmed (s : Store) (cid : String) (limit : Nat)
    (hv : ∀ d ∈ s.transcriptlog, ∀ dt ∈ d.entry.timestamp, dt.Valid) :
    ∀ item ∈ get_transcripts s cid limit,
      ∃ d ∈ s.transcriptlog,
        item._id = d._id.str ∧
        item.timestamp = d.entry.timestamp.map PyDateTime.isoformat ∧
        ∀ dt ∈ d.entry.timestamp,
          fromisoformat (PyDateTime.isoformat dt) = some dt := by
  intro item hitem
  unfold get_transcripts at hitem
  rcases List.mem_map.mp hitem with ⟨d, hd, rfl⟩
  have hd2 : d ∈ s.transcriptlog := by
    unfold get_documents_transcriptlog at hd
    exact List.mem_of_mem_filter (List.mem_of_mem_take hd)
  refine ⟨d, hd2, rfl, rfl, ?_⟩
  intro dt hdt
  exact fromisoformat_isoformat dt (hv d hd2 dt hdt)

/-- Witness for `c8_confirmed` at a concrete input: the stored microsecond
timestamp serializes to `2024-05-01T12:30:45.123456+00:00` and decodes back. -/
theorem c8_confirmed_witness :
    ∃ d ∈ demoStore.transcriptlog,
      (⟨"7", "c1", "system", "note", some "2024-05-01T12:30:45.123456+00:00", none⟩ :
          TranscriptItem)._id = d._id.str ∧
      (⟨"7", "c1", "system", "note", some "2024-05-01T12:30:45.123456+00:00", none⟩ :
          TranscriptItem).timestamp = d.entry.timestamp.map PyDateTime.isoformat ∧
      ∀ dt ∈ d.entry.timestamp,
        fromisoformat (PyDateTime.isoformat dt) = some dt :=
  c8_confirmed demoStore "c1" 100 (by decide) _ (by decide)

/-- Claim C9 confirmed: the transcript listing returns at most `limit` items (the
default limit is 100), and what it returns is exactly the prefix of the full
insertion-ordered listing cut at `limit` — the earliest entries by insertion
order. -/
theorem c9_confirmed (s : Store) (cid : String) (limit : Nat) :
    (get_transcripts s cid limit).length ≤ limit ∧
    get_transcripts s cid limit =
      (get_transcripts s cid s.transcriptlog.length).take limit ∧
    get_transcripts s cid = get_transcripts s cid 100 := by
  refine ⟨?_, ?_, rfl⟩
  · unfold get_transcripts get_documents_transcriptlog
    rw [List.length_map]
    exact List.length_take_le limit _
  · unfold get_transcripts get_documents_transcriptlog
    rw [List.take_of_length_le (List.length_filter_le _ _), ← List.map_take]

/-- Claim C10 confirmed: the direct transcript-logging operation takes no
timestamp from the caller (its body has only call_id, role, text and the optional
outcome); every accepted request stores exactly one entry whose timestamp is the
current server clock reading, hence non-null and server-assigned. -/
theorem c10_confirmed (now : PyDateTime) (i : TranscriptPayloadInput) (s : Store)
    (c ro tx : String) (hc : i.call_id = some c) (hr : i.role = some ro)
    (ht : i.text = some tx) :
    (log_transcript now i s).2 = true ∧
    (log_transcript now i s).1.transcriptlog =
      s.transcriptlog ++ [⟨s.freshId, ⟨c, ro, tx, some now, i.outcome⟩⟩] := by
  unfold log_transcript TranscriptPayload.parse
  rw [hc, hr, ht]
  exact ⟨rfl, rfl⟩

/-- Witness for `c10_confirmed` at a concrete input. -/
theorem c10_confirmed_witness :
    (log_transcript epochDT ⟨some "c9", some "callee", some "ok", none⟩ emptyStore).2 =
        true ∧
    (log_transcript epochDT ⟨some "c9", some "callee", some "ok", none⟩
        emptyStore).1.transcriptlog =
      emptyStore.transcriptlog ++
        [⟨emptyStore.freshId, ⟨"c9", "callee", "ok", some epochDT, none⟩⟩] :=
  c10_confirmed epochDT ⟨some "c9", some "callee", some "ok", none⟩ emptyStore
    "c9" "callee" "ok" rfl rfl rfl

end NovaCall
